import Mathlib

/-!
Shallow embedding of src/src/libopensc/card-starcos.c (STARCOS SPK 2.3 card
driver).  Pure data is modelled with Nat/List Nat; the card transport is
modelled by a finite script of responses consumed in order; every transmitted
APDU is recorded in a trace so that "number of transport calls" is the trace
length.  Functions not present in this repository slice (sc_asn1_find_tag,
sc_file_new) are modelled from the spec and marked as such.
-/

/-- One card response as delivered by the transport: response data bytes and
the two status-word bytes (`apdu.resp`/`apdu.sw1`/`apdu.sw2`). -/
structure Resp where
  data : List Nat
  sw1 : Nat
  sw2 : Nat
deriving DecidableEq

/-- One transmitted command APDU (instruction byte, P1, P2, data field),
recorded for trace/counting purposes. -/
structure Apdu where
  ins : Nat
  p1 : Nat
  p2 : Nat
  data : List Nat
deriving DecidableEq

/-- The driver-specific error codes occurring in the `starcos_errors` table
(`SC_ERROR_*` constants of the framework). -/
inductive ScErr where
  | incorrectParameters
  | notAllowed
  | fileAlreadyExists
  | cardCmdFailed
  | fileNotFound
deriving DecidableEq

/-- The fixed table `starcos_errors` of card-specific status words
(card-starcos.c lines 50-66): status word, framework error, message. -/
def starcos_errors : List (Nat × ScErr × String) :=
  [ (0x6600, .incorrectParameters, "Error setting the security env"),
    (0x66F0, .incorrectParameters, "No space left for padding"),
    (0x69F0, .notAllowed,          "Command not allowed"),
    (0x6A89, .fileAlreadyExists,   "Files exists"),
    (0x6A8A, .fileAlreadyExists,   "Application exists"),
    (0x6F01, .cardCmdFailed, "public key not complete"),
    (0x6F02, .cardCmdFailed, "data overflow"),
    (0x6F03, .cardCmdFailed, "invalid command sequence"),
    (0x6F05, .cardCmdFailed, "security enviroment invalid"),
    (0x6F07, .fileNotFound, "key part not found"),
    (0x6F08, .cardCmdFailed, "signature failed"),
    (0x6F0A, .incorrectParameters, "key format does not match key length"),
    (0x6F0B, .incorrectParameters, "length of key component inconsistent with algorithm"),
    (0x6F81, .cardCmdFailed, "system error") ]

/-- First table entry matching the combined status word, as the linear scan in
`starcos_check_sw` does. -/
def lookupErr (sw : Nat) : List (Nat × ScErr × String) → Option ScErr
  | [] => none
  | (c, e, _) :: rest => if c = sw then some e else lookupErr sw rest

/-- Result of the status-word translator `starcos_check_sw`:
`SC_NO_ERROR`, `SC_ERROR_PIN_CODE_INCORRECT` (the remaining-tries nibble the
code computes for its diagnostic), a table hit, or delegation to the base
ISO7816 translator (`iso_ops->check_sw`). -/
inductive SwResult where
  | noError
  | pinIncorrect (remainingTries : Nat)
  | starcosErr (e : ScErr)
  | iso (sw1 sw2 : Nat)
deriving DecidableEq

/-- `starcos_check_sw` (card-starcos.c lines 1001-1028).  The C test
`(sw2 & ~0x0f) == 0xc0` on a nonnegative int is exactly `sw2 / 16 = 0x0c`;
the remaining-tries value is `sw2 & 0x0f = sw2 % 16`. -/
def starcos_check_sw (sw1 sw2 : Nat) : SwResult :=
  if sw1 = 0x90 then .noError
  else if sw1 = 0x63 ∧ sw2 / 16 = 0x0c then .pinIncorrect (sw2 % 16)
  else
    match lookupErr ((sw1 <<< 8) ||| sw2) starcos_errors with
    | some e => .starcosErr e
    | none => .iso sw1 sw2

/-- The pending security operation stored in `starcos_mse_state.sec_ops`;
`idle` is the cleared value 0. -/
inductive SecOp where
  | idle
  | sign
  | authenticate
  | decipher
deriving DecidableEq

/-- The driver state `starcos_mse_state` (card-starcos.c lines 69-75):
pending operation, reference-block bytes (`buf`/`buf_len`), MSE parameters. -/
structure MseState where
  secOps : SecOp
  buf : List Nat
  p1 : Nat
  p2 : Nat
deriving DecidableEq

/-- The all-zero state produced by `memset(mse, 0, sizeof(starcos_mse_state))`. -/
def MseState.cleared : MseState := ⟨.idle, [], 0, 0⟩

/-- The operation requested in a `sc_security_env`, as switched on by
`starcos_set_security_env`; `other` covers every value besides the three
supported constants. -/
inductive EnvOp where
  | decipher
  | sign
  | authenticate
  | other
deriving DecidableEq

/-- The fields of `sc_security_env` read by `starcos_set_security_env`. -/
structure SecurityEnv where
  operation : EnvOp
  algRefPresent : Bool
  algPresent : Bool
  algorithmIsRsa : Bool
  padPkcs1 : Bool
  keyRefPresent : Bool
  keyRefAsymmetric : Bool
  algorithmRef : Nat
  keyRef : List Nat
deriving DecidableEq

/-- `starcos_set_security_env` (card-starcos.c lines 750-832): fixes the MSE
instruction parameters by operation, builds the reference block, transitions
to configured; `none` is `SC_ERROR_INVALID_ARGUMENTS`.  No transport call. -/
def starcos_set_security_env (env : SecurityEnv) : Option MseState :=
  let hdr : Option (SecOp × Nat × Nat) :=
    match env.operation with
    | .decipher => some (.decipher, 0x81, 0xB8)
    | .sign => some (.sign, 0x41, 0xB6)
    | .authenticate => some (.authenticate, 0x41, 0xA4)
    | .other => none
  match hdr with
  | none => none
  | some (op, q1, q2) =>
    let algPart : List Nat :=
      if env.algRefPresent then [0x80, 0x01, env.algorithmRef % 256]
      else if env.algPresent ∧ env.algorithmIsRsa ∧ env.padPkcs1 then
        if env.operation = .decipher then [0x80, 0x01, 0x02]
        else if env.operation = .sign ∨ env.operation = .authenticate then
          [0x80, 0x01, 0x12]
        else []
      else []
    let keyPart : List Nat :=
      if env.keyRefPresent then
        (if env.keyRefAsymmetric then [0x83] else [0x84])
          ++ [env.keyRef.length] ++ env.keyRef
      else []
    some ⟨op, algPart ++ keyPart, q1, q2⟩

/-- Outcome of a sequencer entry point: the immediate
`SC_ERROR_INVALID_ARGUMENTS` returns, a translated status word, the returned
output bytes (the C functions return their length), or a transport failure
(`sc_transmit_apdu` failing / script exhausted). -/
inductive OpResult where
  | invalidArguments
  | checkSw (r : SwResult)
  | output (bytes : List Nat)
  | transportError
deriving DecidableEq

/-- `starcos_compute_signature` (card-starcos.c lines 835-936) over a response
script.  Returns the result, the final `starcos_mse_state`, and the trace of
transmitted APDUs (one response is consumed per transmitted APDU).  Mirrors
the C control flow exactly: the `memset` clearing the state (line 933) is
reached only by falling out of the Sign branch on a non-success final status;
every other path returns before it. -/
def starcos_compute_signature (mse : MseState) (data : List Nat) (outlen : Nat)
    (script : List Resp) : OpResult × MseState × List Apdu :=
  if data.length > 20 then (.invalidArguments, mse, [])
  else if mse.secOps = .idle then (.invalidArguments, mse, [])
  else
    let mseApdu : Apdu := ⟨0x22, mse.p1, mse.p2, mse.buf⟩
    match script with
    | [] => (.transportError, mse, [])
    | r1 :: s1 =>
      if ¬(r1.sw1 = 0x90 ∧ r1.sw2 = 0x00) then
        (.checkSw (starcos_check_sw r1.sw1 r1.sw2), mse, [mseApdu])
      else
        match mse.secOps with
        | .sign =>
          let hashApdu : Apdu := ⟨0x2A, 0x90, 0x81, data⟩
          match s1 with
          | [] => (.transportError, mse, [mseApdu])
          | r2 :: s2 =>
            if ¬(r2.sw1 = 0x90 ∧ r2.sw2 = 0x00) then
              (.checkSw (starcos_check_sw r2.sw1 r2.sw2), mse, [mseApdu, hashApdu])
            else
              let sigApdu : Apdu := ⟨0x2A, 0x9E, 0x9A, []⟩
              match s2 with
              | [] => (.transportError, mse, [mseApdu, hashApdu])
              | r3 :: _ =>
                if r3.sw1 = 0x90 ∧ r3.sw2 = 0x00 then
                  (.output (r3.data.take outlen), mse, [mseApdu, hashApdu, sigApdu])
                else
                  (.checkSw (starcos_check_sw r3.sw1 r3.sw2), MseState.cleared,
                   [mseApdu, hashApdu, sigApdu])
        | .authenticate =>
          let authApdu : Apdu := ⟨0x88, 0x10, 0x00, data⟩
          match s1 with
          | [] => (.transportError, mse, [mseApdu])
          | r2 :: _ =>
            (.output (r2.data.take outlen), mse, [mseApdu, authApdu])
        | .decipher =>
          (.invalidArguments, mse, [mseApdu])
        | .idle =>
          (.invalidArguments, mse, [mseApdu])

/-- `starcos_decipher` (card-starcos.c lines 939-997) over a response script.
The decrypt payload is the padding-indicator byte 0x00 followed by the
cryptogram; the clearing `memset` (line 994) is reached only when the decrypt
status is not 0x9000. -/
def starcos_decipher (mse : MseState) (crgram : List Nat) (outlen : Nat)
    (script : List Resp) : OpResult × MseState × List Apdu :=
  if crgram.length > 255 then (.invalidArguments, mse, [])
  else if mse.secOps = .idle then (.invalidArguments, mse, [])
  else
    let mseApdu : Apdu := ⟨0x22, mse.p1, mse.p2, mse.buf⟩
    match script with
    | [] => (.transportError, mse, [])
    | r1 :: s1 =>
      if ¬(r1.sw1 = 0x90 ∧ r1.sw2 = 0x00) then
        (.checkSw (starcos_check_sw r1.sw1 r1.sw2), mse, [mseApdu])
      else
        let decApdu : Apdu := ⟨0x2A, 0x80, 0x86, 0x00 :: crgram⟩
        match s1 with
        | [] => (.transportError, mse, [mseApdu])
        | r2 :: _ =>
          if r2.sw1 = 0x90 ∧ r2.sw2 = 0x00 then
            (.output (r2.data.take outlen), mse, [mseApdu, decApdu])
          else
            (.checkSw (starcos_check_sw r2.sw1 r2.sw2), MseState.cleared,
             [mseApdu, decApdu])

/-- `sc_path_t.type` values used by the driver: `SC_PATH_TYPE_FILE_ID` (0),
`SC_PATH_TYPE_DF_NAME`, `SC_PATH_TYPE_PATH`, and any other value. -/
inductive PathType where
  | fileId
  | dfName
  | path
  | other
deriving DecidableEq

/-- A `sc_path_t`: addressing kind and value bytes (`len` is the list length). -/
structure ScPath where
  ptype : PathType
  value : List Nat
deriving DecidableEq

/-- The selection-relevant card session state: `card->cache_valid` and
`card->cache.current_path`. -/
structure SelState where
  cacheValid : Bool
  cachePath : ScPath
deriving DecidableEq

/-- `sc_file_t.type` values the driver assigns. -/
inductive FType where
  | workingEF
  | df
deriving DecidableEq

/-- `sc_file_t.ef_structure` values the driver assigns. -/
inductive EfStruct where
  | transparent
  | linearFixed
  | cyclic
  | unknown
deriving DecidableEq

/-- A returned `sc_file_t` descriptor.  Metadata fields are `Option`s:
`none` models a field never written after `sc_file_new` allocation
(i.e. left undecoded). -/
structure ScFile where
  id : Nat
  path : ScPath
  ftype : Option FType
  efStructure : Option EfStruct
  shareable : Option Bool
  size : Option Nat
  recordLength : Option Nat
  name : List Nat
deriving DecidableEq

/-- Modelled from the spec: the framework descriptor allocator `sc_file_new`
(not under src/) returns a zeroed descriptor, so every metadata field starts
undecoded (`sc_path_t` zeroed means type 0 = `fileId`, empty value). -/
def ScFile.blank : ScFile := ⟨0, ⟨.fileId, []⟩, none, none, none, none, none, []⟩

/-- Modelled from the spec: the repository's TLV scanner `sc_asn1_find_tag`
(asn1.c, not under src/) walks simple TLV-encoded bytes — one tag byte, one
length byte, then the value — and returns the value of the first occurrence
of the requested tag. -/
def findTagGo (tag : Nat) : Nat → List Nat → Option (List Nat)
  | fuel + 1, t :: l :: rest =>
    if t = tag then some (rest.take l) else findTagGo tag fuel (rest.drop l)
  | _, _ => none

/-- Scan `buf` for `tag` (see `findTagGo`); each step consumes at least two
bytes of the remaining buffer, so `buf.length` fuel always suffices. -/
def sc_asn1_find_tag (buf : List Nat) (tag : Nat) : Option (List Nat) :=
  findTagGo tag buf.length buf

/-- `process_fci` (card-starcos.c lines 78-166): sets the default metadata,
then decodes tag 0x80 (size, big-endian 2 bytes) and tag 0x82 (type and EF
structure).  The 3-byte case of tag 0x82 requires the middle byte 0x21; the
0x17 arm does not touch the record length already set to the third byte. -/
def process_fci (file : ScFile) (buf : List Nat) : ScFile :=
  let f0 : ScFile := { file with ftype := some .workingEF,
                                 efStructure := some .unknown,
                                 shareable := some false,
                                 recordLength := some 0,
                                 size := some 0 }
  let f1 : ScFile :=
    match sc_asn1_find_tag buf 0x80 with
    | some v =>
      if v.length ≥ 2 then
        { f0 with size := some ((v.getD 0 0 <<< 8) + v.getD 1 0) }
      else f0
    | none => f0
  match sc_asn1_find_tag buf 0x82 with
  | some v =>
    if v.length = 1 ∧ v.getD 0 0 = 0x01 then
      { f1 with ftype := some .workingEF, efStructure := some .transparent }
    else if v.length = 1 ∧ v.getD 0 0 = 0x11 then
      { f1 with ftype := some .workingEF, efStructure := some .transparent }
    else if v.length = 3 ∧ v.getD 1 0 = 0x21 then
      let f2 : ScFile := { f1 with recordLength := some (v.getD 2 0),
                                   ftype := some .workingEF }
      if v.getD 0 0 = 0x02 then { f2 with efStructure := some .linearFixed }
      else if v.getD 0 0 = 0x07 then { f2 with efStructure := some .cyclic }
      else if v.getD 0 0 = 0x17 then { f2 with efStructure := some .unknown }
      else { f2 with efStructure := some .unknown, recordLength := some 0 }
    else f1
  | none => f1

/-- The C test `apdu.resp[1] <= apdu.resplen - 2` with `resplen : size_t`:
for `resplen < 2` the unsigned subtraction wraps around, so the comparison is
true for any byte-sized left operand. -/
def fciLenOk (resplen fciLen : Nat) : Bool :=
  if 2 ≤ resplen then fciLen ≤ resplen - 2 else true

/-- Result codes of the selection functions. -/
inductive SelRes where
  | success
  | invalidArguments
  | checkSw (r : SwResult)
  | unknownData
  | transportError
  | internalError
  | fuelExhausted
deriving DecidableEq

/-- Output of `starcos_select_fid`/`starcos_select_aid`: result, descriptor,
updated session state, and trace of transmitted APDUs (one response consumed
per APDU). -/
structure FidOut where
  res : SelRes
  file : Option ScFile
  st : SelState
  sent : List Apdu
deriving DecidableEq

/-- The cache update of `starcos_select_fid` (lines 369-382) when the selected
file is a DF: the resolved directory path, anchored at the MF 3F00. -/
def dfCacheUpdate (st : SelState) (hi lo : Nat) : SelState :=
  { st with cachePath :=
      ⟨.path, if hi = 0x3f ∧ lo = 0x00 then [0x3f, 0x00] else [0x3f, 0x00, hi, lo]⟩ }

/-- The DF descriptor synthesized by `starcos_select_fid` (lines 392-401):
id, path copied from the (updated) cache, DF type, unknown structure, size 0,
empty name; the record length is never written. -/
def dfFile (hi lo : Nat) (cp : ScPath) : ScFile :=
  { id := (hi <<< 8) + lo, path := cp, ftype := some .df,
    efStructure := some .unknown, shareable := none, size := some 0,
    recordLength := none, name := [] }

/-- `starcos_select_fid` (card-starcos.c lines 309-422).  First APDU: SELECT
with FCI request (INS A4, P1 0, P2 0, data the FID).  Status 0x6284 means DF:
re-issue the select with P2 0x0C; status 0x61xx/0x9000 means data returned:
probe with a 1-byte READ BINARY, where status 0x6986 means DF.  Any other
status is translated.  The cache is updated only in the DF case; the EF case
requires the response to begin with tag 0x6F and decodes the FCI only when
the claimed length fits the response. -/
def starcos_select_fid (st : SelState) (hi lo : Nat) (wantFile : Bool)
    (script : List Resp) : FidOut :=
  let selApdu : Apdu := ⟨0xA4, 0x00, 0x00, [hi, lo]⟩
  match script with
  | [] => ⟨.transportError, none, st, []⟩
  | r1 :: s1 =>
    if r1.sw1 = 0x62 ∧ r1.sw2 = 0x84 then
      -- no FCI returned: DF; confirmatory re-select with P2 = 0x0C
      let conApdu : Apdu := ⟨0xA4, 0x00, 0x0C, [hi, lo]⟩
      match s1 with
      | [] => ⟨.transportError, none, st, [selApdu]⟩
      | r2 :: _ =>
        if r2.sw1 ≠ 0x61 ∧ (r2.sw1 ≠ 0x90 ∨ r2.sw2 ≠ 0x00) then
          ⟨.checkSw (starcos_check_sw r2.sw1 r2.sw2), none, st, [selApdu, conApdu]⟩
        else
          let st' := dfCacheUpdate st hi lo
          ⟨.success, if wantFile then some (dfFile hi lo st'.cachePath) else none,
           st', [selApdu, conApdu]⟩
    else if r1.sw1 = 0x61 ∨ (r1.sw1 = 0x90 ∧ r1.sw2 = 0x00) then
      -- data returned: probe with READ BINARY to distinguish EF from DF
      let rdApdu : Apdu := ⟨0xB0, 0x00, 0x00, []⟩
      match s1 with
      | [] => ⟨.transportError, none, st, [selApdu]⟩
      | rb :: _ =>
        if rb.sw1 = 0x69 ∧ rb.sw2 = 0x86 then
          let st' := dfCacheUpdate st hi lo
          ⟨.success, if wantFile then some (dfFile hi lo st'.cachePath) else none,
           st', [selApdu, rdApdu]⟩
        else
          if wantFile then
            if r1.data.getD 0 0 ≠ 0x6F then
              ⟨.unknownData, none, st, [selApdu, rdApdu]⟩
            else
              let base : ScFile :=
                { ScFile.blank with id := (hi <<< 8) + lo, path := st.cachePath }
              let file :=
                if fciLenOk r1.data.length (r1.data.getD 1 0) then
                  process_fci base ((r1.data.drop 2).take (r1.data.getD 1 0))
                else base
              ⟨.success, some file, st, [selApdu, rdApdu]⟩
          else
            ⟨.success, none, st, [selApdu, rdApdu]⟩
    else
      ⟨.checkSw (starcos_check_sw r1.sw1 r1.sw2), none, st, [selApdu]⟩

/-- `starcos_select_aid` (card-starcos.c lines 257-307): one SELECT-by-AID
APDU (INS A4, P1 0x04, P2 0x0C); success or 0x61xx required; the cache is set
to the AID; the DF descriptor is synthesized directly from the AID bytes
(id 0, zero-length path, name = AID). -/
def starcos_select_aid (st : SelState) (aid : List Nat) (wantFile : Bool)
    (script : List Resp) : FidOut :=
  let selApdu : Apdu := ⟨0xA4, 0x04, 0x0C, aid⟩
  match script with
  | [] => ⟨.transportError, none, st, []⟩
  | r :: _ =>
    if ¬(r.sw1 = 0x90 ∧ r.sw2 = 0x00) ∧ r.sw1 ≠ 0x61 then
      ⟨.checkSw (starcos_check_sw r.sw1 r.sw2), none, st, [selApdu]⟩
    else
      let st' : SelState := { st with cachePath := ⟨.dfName, aid⟩ }
      let file : Option ScFile :=
        if wantFile then
          some { id := 0, path := ⟨.fileId, []⟩, ftype := some .df,
                 efStructure := some .unknown, shareable := none,
                 size := some 0, recordLength := none, name := aid }
        else none
      ⟨.success, file, st', [selApdu]⟩

/-- The `bMatch` accumulation of `starcos_select_file` (lines 521-526): for
each whole FID pair position of the cached path, add 2 if the pair equals the
request's pair at the same position.  (For a root-anchored cached path the
length is always even; an odd-length cache would read past the buffer in C,
which this total model maps to no contribution from the dangling byte.) -/
def bMatchCount : List Nat → List Nat → Nat
  | a :: b :: cr, x :: y :: pr =>
    (if a = x ∧ b = y then 2 else 0) + bMatchCount cr pr
  | _, _ => 0

/-- Output of `starcos_select_file`: result, descriptor, state, transmitted
APDUs, and the sequence of low-level select calls it issued —
`fidCalls` records each `starcos_select_fid` invocation as
(id-high, id-low, metadata requested), `aidCalls` each `starcos_select_aid`
invocation as (AID bytes, metadata requested). -/
structure SelOut where
  res : SelRes
  file : Option ScFile
  st : SelState
  sent : List Apdu
  fidCalls : List (Nat × Nat × Bool)
  aidCalls : List (List Nat × Bool)
deriving DecidableEq

/-- The FileId cache-hit test of `starcos_select_file` (lines 459-463): the
cache is valid, holds a FID path, and its last two bytes equal the requested
FID. -/
def fidCacheHit (st : SelState) (a b : Nat) : Prop :=
  st.cacheValid = true ∧ st.cachePath.ptype = .path
    ∧ 2 ≤ st.cachePath.value.length
    ∧ st.cachePath.value.getD (st.cachePath.value.length - 2) 0 = a
    ∧ st.cachePath.value.getD (st.cachePath.value.length - 1) 0 = b

instance (st : SelState) (a b : Nat) : Decidable (fidCacheHit st a b) := by
  unfold fidCacheHit; exact inferInstance

/-- The AppId cache-hit test of `starcos_select_file` (lines 475-478): the
cache is valid, holds a DF name, and its bytes equal the requested AID. -/
def aidCacheHit (st : SelState) (aid : List Nat) : Prop :=
  st.cacheValid = true ∧ st.cachePath.ptype = .dfName ∧ st.cachePath.value = aid

instance (st : SelState) (aid : List Nat) : Decidable (aidCacheHit st aid) := by
  unfold aidCacheHit; exact inferInstance

/-- The no-usable-cache walk of `starcos_select_file` (lines 586-595): select
every intermediate FID with metadata discarded, aborting on the first
failure, then select the final FID with the requested metadata. -/
def walkFids (st : SelState) (path : List Nat) (wantFile : Bool)
    (script : List Resp) : SelOut :=
  match path with
  | [hi, lo] =>
    let o := starcos_select_fid st hi lo wantFile script
    ⟨o.res, o.file, o.st, o.sent, [(hi, lo, wantFile)], []⟩
  | hi :: lo :: rest =>
    let o := starcos_select_fid st hi lo false script
    if o.res ≠ .success then
      ⟨o.res, none, o.st, o.sent, [(hi, lo, false)], []⟩
    else
      let w := walkFids o.st rest wantFile (script.drop o.sent.length)
      ⟨w.res, w.file, w.st, o.sent ++ w.sent, (hi, lo, false) :: w.fidCalls,
       w.aidCalls⟩
  | _ => ⟨.internalError, none, st, [], [], []⟩

/-- The body of `starcos_select_file` (card-starcos.c lines 424-601),
fuel-indexed because the FullPath branch recurses on the path suffix (line
546); each recursion follows a successful intermediate FID-select, which
always consumes at least one scripted response, so `script.length + 1` fuel
(as supplied by `starcos_select_file`) always suffices. -/
def selectFileGo : Nat → SelState → ScPath → Bool → List Resp → SelOut
  | 0, st, _, _, _ => ⟨.fuelExhausted, none, st, [], [], []⟩
  | fuel + 1, st, inPath, wantFile, script =>
    let p := inPath.value
    match inPath.ptype with
    | .fileId =>
      if p.length ≠ 2 then ⟨.invalidArguments, none, st, [], [], []⟩
      else if fidCacheHit st (p.getD 0 0) (p.getD 1 0) then
        ⟨.success, none, st, [], [], []⟩
      else
        let o := starcos_select_fid st (p.getD 0 0) (p.getD 1 0) wantFile script
        ⟨o.res, o.file, o.st, o.sent, [(p.getD 0 0, p.getD 1 0, wantFile)], []⟩
    | .dfName =>
      if aidCacheHit st p then
        ⟨.success, none, st, [], [], []⟩
      else
        let o := starcos_select_aid st p wantFile script
        ⟨o.res, o.file, o.st, o.sent, [], [(p, wantFile)]⟩
    | .path =>
      if p.length % 2 ≠ 0 ∨ p.length > 6 ∨ p.length = 0 then
        ⟨.invalidArguments, none, st, [], [], []⟩
      else if p.length = 6 ∧ ¬(p.getD 0 0 = 0x3f ∧ p.getD 1 0 = 0x00) then
        ⟨.invalidArguments, none, st, [], [], []⟩
      else
        -- unify the path: the first FID should be the MF 3F00
        let path := if p.getD 0 0 = 0x3f ∧ p.getD 1 0 = 0x00 then p
                    else 0x3f :: 0x00 :: p
        let pathlen := path.length
        -- bMatch stays -1 (none) unless the cache is a usable PATH entry
        let bMatch : Option Nat :=
          if st.cacheValid = true ∧ st.cachePath.ptype = .path
              ∧ 2 ≤ st.cachePath.value.length
              ∧ st.cachePath.value.length ≤ pathlen then
            some (bMatchCount st.cachePath.value path)
          else none
        match bMatch with
        | some bm =>
          if pathlen - bm = 2 then
            -- we are in the right directory: select the final FID
            let o := starcos_select_fid st (path.getD bm 0) (path.getD (bm + 1) 0)
                       wantFile script
            ⟨o.res, o.file, o.st, o.sent, [(path.getD bm 0, path.getD (bm + 1) 0, wantFile)], []⟩
          else if pathlen - bm > 2 then
            -- two more steps: change directory, then recurse on the suffix
            let o := starcos_select_fid st (path.getD bm 0) (path.getD (bm + 1) 0)
                       false script
            if o.res ≠ .success then
              ⟨o.res, none, o.st, o.sent, [(path.getD bm 0, path.getD (bm + 1) 0, false)], []⟩
            else
              let rec' := selectFileGo fuel o.st ⟨.path, path.drop (bm + 2)⟩
                            wantFile (script.drop o.sent.length)
              ⟨rec'.res, rec'.file, rec'.st, o.sent ++ rec'.sent,
               (path.getD bm 0, path.getD (bm + 1) 0, false) :: rec'.fidCalls,
               rec'.aidCalls⟩
          else
            -- already in the requested directory: synthesize a DF descriptor
            -- from the cache (the disabled re-select branch is not taken)
            let file : Option ScFile :=
              if wantFile then
                some { id := (path.getD (pathlen - 2) 0 <<< 8) + path.getD (pathlen - 1) 0,
                       path := st.cachePath, ftype := some .df,
                       efStructure := some .unknown, shareable := none,
                       size := some 0, recordLength := none, name := [] }
              else none
            ⟨.success, file, st, [], [], []⟩
        | none =>
          walkFids st path wantFile script
    | .other => ⟨.invalidArguments, none, st, [], [], []⟩

/-- `starcos_select_file`, with enough fuel that the recursion of the
FullPath branch can never exhaust it (every recursion step consumes at least
one scripted response first). -/
def starcos_select_file (st : SelState) (inPath : ScPath) (wantFile : Bool)
    (script : List Resp) : SelOut :=
  selectFileGo (script.length + 1) st inPath wantFile script

/-- The ATR fingerprint table `starcos_atrs` (card-starcos.c lines 34-38),
with the colon-separated hex strings decoded to bytes as `sc_hex_to_bin`
does: "3B:B7:94:00:c0:24:31:fe:65:53:50:4b:32:33:90:00:b4" and
"3B:B7:94:00:81:31:fe:65:53:50:4b:32:33:90:00:d1". -/
def starcos_atrs : List (List Nat) :=
  [ [0x3B, 0xB7, 0x94, 0x00, 0xC0, 0x24, 0x31, 0xFE, 0x65, 0x53, 0x50, 0x4B,
     0x32, 0x33, 0x90, 0x00, 0xB4],
    [0x3B, 0xB7, 0x94, 0x00, 0x81, 0x31, 0xFE, 0x65, 0x53, 0x50, 0x4B,
     0x32, 0x33, 0x90, 0x00, 0xD1] ]

/-- The loop of `starcos_match_card` (card-starcos.c lines 177-200): on the
first table entry whose decoded bytes equal the card's ATR it sets
`match = i + 1` and breaks, then returns `i` (not `match`); with no hit the
function returns 0. -/
def matchCardGo (i : Nat) : List (List Nat) → List Nat → Nat
  | [], _ => 0
  | a :: rest, atr => if a = atr then i else matchCardGo (i + 1) rest atr

/-- `starcos_match_card` applied to the card's ATR bytes. -/
def starcos_match_card (atr : List Nat) : Nat :=
  matchCardGo 0 starcos_atrs atr

/-- The variant check of `starcos_init` (card-starcos.c lines 217-234): the
card is accepted (algorithms registered, max_le set) only when
`starcos_match_card` returns 1 or 2; otherwise `SC_ERROR_INTERNAL`. -/
def starcos_init_ok (atr : List Nat) : Bool :=
  starcos_match_card atr = 1 ∨ starcos_match_card atr = 2

/-- C2: evaluating the code at the failing input.  The first ATR fingerprint
of `starcos_atrs` makes `starcos_match_card` return 0 ("no match"), because
the function returns the loop index `i` instead of the computed
`match = i + 1`; consequently `starcos_init` — which accepts only the values
1 and 2 — rejects a genuine variant-1 card with `SC_ERROR_INTERNAL`.  The
second fingerprint happens to return 1 (nonzero) only because its index is 1,
and an unknown ATR returns 0. -/
theorem claim2_match_card_first_atr_bug :
    starcos_match_card [0x3B, 0xB7, 0x94, 0x00, 0xC0, 0x24, 0x31, 0xFE, 0x65,
        0x53, 0x50, 0x4B, 0x32, 0x33, 0x90, 0x00, 0xB4] = 0 ∧
    starcos_init_ok [0x3B, 0xB7, 0x94, 0x00, 0xC0, 0x24, 0x31, 0xFE, 0x65,
        0x53, 0x50, 0x4B, 0x32, 0x33, 0x90, 0x00, 0xB4] = false ∧
    starcos_match_card [0x3B, 0xB7, 0x94, 0x00, 0x81, 0x31, 0xFE, 0x65, 0x53,
        0x50, 0x4B, 0x32, 0x33, 0x90, 0x00, 0xD1] = 1 ∧
    starcos_match_card [0x11, 0x22] = 0 := by
  decide

/-- C1: evaluating the code at the failing input.  A `computeSignature` call
with a pending Sign configuration whose three exchanges all succeed returns
the signature while leaving the security-environment state untouched (the
clearing `memset` is bypassed by the early success return), so an immediate
second sequencer call does not fail `InvalidArguments`; a fully successful
`decipher` likewise leaves its pending state in place. -/
theorem claim1_mse_state_not_cleared :
    (starcos_compute_signature ⟨.sign, [0x80, 0x01, 0x12], 0x41, 0xB6⟩ [0xAB] 256
        [⟨[], 0x90, 0x00⟩, ⟨[], 0x90, 0x00⟩, ⟨[1, 2, 3], 0x90, 0x00⟩]).1 =
      .output [1, 2, 3] ∧
    (starcos_compute_signature ⟨.sign, [0x80, 0x01, 0x12], 0x41, 0xB6⟩ [0xAB] 256
        [⟨[], 0x90, 0x00⟩, ⟨[], 0x90, 0x00⟩, ⟨[1, 2, 3], 0x90, 0x00⟩]).2.1 =
      ⟨.sign, [0x80, 0x01, 0x12], 0x41, 0xB6⟩ ∧
    (starcos_compute_signature ⟨.sign, [0x80, 0x01, 0x12], 0x41, 0xB6⟩ [0xAB] 256
        [⟨[], 0x90, 0x00⟩, ⟨[], 0x90, 0x00⟩, ⟨[1, 2, 3], 0x90, 0x00⟩]).2.1 ≠
      MseState.cleared ∧
    (starcos_compute_signature ⟨.sign, [0x80, 0x01, 0x12], 0x41, 0xB6⟩ [0xAB] 256
        [⟨[], 0x90, 0x00⟩, ⟨[], 0x90, 0x00⟩, ⟨[4], 0x90, 0x00⟩]).1 ≠
      .invalidArguments ∧
    (starcos_decipher ⟨.decipher, [0x80, 0x01, 0x02], 0x81, 0xB8⟩ [1] 256
        [⟨[], 0x90, 0x00⟩, ⟨[9], 0x90, 0x00⟩]).2.1 =
      ⟨.decipher, [0x80, 0x01, 0x02], 0x81, 0xB8⟩ := by
  decide

/-- C5: evaluating the code at the failing input.  With an Authenticate
configuration and a successful MSE, a non-success status word 0x6A88 from the
single internal-authenticate command is ignored: the call returns the (empty)
response data as a success instead of the translated error. -/
theorem claim5_authenticate_ignores_status :
    (starcos_compute_signature ⟨.authenticate, [], 0x41, 0xA4⟩ [0xAB] 256
        [⟨[], 0x90, 0x00⟩, ⟨[], 0x6A, 0x88⟩]).1 = .output [] ∧
    (starcos_compute_signature ⟨.authenticate, [], 0x41, 0xA4⟩ [0xAB] 256
        [⟨[], 0x90, 0x00⟩, ⟨[], 0x6A, 0x88⟩]).1 ≠
      .checkSw (starcos_check_sw 0x6A 0x88) := by
  decide

/-- C3 counterexample: `decipher` with a pending Sign configuration (not
`Configured(Decipher)`) does not fail `InvalidArguments` — with successful
card responses it returns the plaintext bytes. -/
theorem claim3_decipher_kind_unchecked :
    (starcos_decipher ⟨.sign, [0x80, 0x01, 0x12], 0x41, 0xB6⟩ [1, 2, 3] 256
        [⟨[], 0x90, 0x00⟩, ⟨[5, 6], 0x90, 0x00⟩]).1 = .output [5, 6] ∧
    (starcos_decipher ⟨.sign, [0x80, 0x01, 0x12], 0x41, 0xB6⟩ [1, 2, 3] 256
        [⟨[], 0x90, 0x00⟩, ⟨[5, 6], 0x90, 0x00⟩]).1 ≠ .invalidArguments := by
  decide

/-- C6 counterexample: a 3-byte tag-0x82 value whose middle byte is not 0x21
(here 82 03 02 22 0A) keeps the defaults — structure Unknown, record length 0
— instead of the claimed LinearFixed with record length 10; and the 3-byte
value 17 21 0A yields record length 10, not the claimed reset to 0. -/
theorem claim6_tag82_counterexample :
    (process_fci ScFile.blank [0x82, 0x03, 0x02, 0x22, 0x0A]).efStructure =
      some .unknown ∧
    (process_fci ScFile.blank [0x82, 0x03, 0x02, 0x22, 0x0A]).recordLength =
      some 0 ∧
    (process_fci ScFile.blank [0x82, 0x03, 0x17, 0x21, 0x0A]).recordLength =
      some 10 := by
  decide

/-- C4 counterexample: selecting FullPath [3F00,1234,5678] with an invalid
cache issues three FID-select calls (3F00, then 1234, then 5678), not the
claimed two. -/
theorem claim4_two_selects_counterexample :
    (starcos_select_file ⟨false, ⟨.path, []⟩⟩
        ⟨.path, [0x3f, 0x00, 0x12, 0x34, 0x56, 0x78]⟩ true
        [⟨[], 0x62, 0x84⟩, ⟨[], 0x90, 0x00⟩, ⟨[], 0x62, 0x84⟩, ⟨[], 0x90, 0x00⟩,
         ⟨[0x6F, 0x07, 0x80, 0x02, 0x00, 0x64, 0x82, 0x01, 0x01], 0x90, 0x00⟩,
         ⟨[0xFF], 0x90, 0x00⟩]).fidCalls.length = 3 ∧
    (starcos_select_file ⟨false, ⟨.path, []⟩⟩
        ⟨.path, [0x3f, 0x00, 0x12, 0x34, 0x56, 0x78]⟩ true
        [⟨[], 0x62, 0x84⟩, ⟨[], 0x90, 0x00⟩, ⟨[], 0x62, 0x84⟩, ⟨[], 0x90, 0x00⟩,
         ⟨[0x6F, 0x07, 0x80, 0x02, 0x00, 0x64, 0x82, 0x01, 0x01], 0x90, 0x00⟩,
         ⟨[0xFF], 0x90, 0x00⟩]).fidCalls ≠
      [(0x12, 0x34, false), (0x56, 0x78, true)] := by
  decide

/-- C4 amended: selecting FullPath [3F00,1234,5678] with an invalid cache
issues exactly three FID-select calls — 3F00 and 1234 without metadata, then
5678 with metadata — and returns a Transparent EF descriptor of size 100 when
the final response's FCI carries tag 0x80 with value 00 64 and tag 0x82 with
value 01 (both intermediate selects being classified as DFs). -/
theorem claim4_three_selects_amended :
    starcos_select_file ⟨false, ⟨.path, []⟩⟩
        ⟨.path, [0x3f, 0x00, 0x12, 0x34, 0x56, 0x78]⟩ true
        [⟨[], 0x62, 0x84⟩, ⟨[], 0x90, 0x00⟩, ⟨[], 0x62, 0x84⟩, ⟨[], 0x90, 0x00⟩,
         ⟨[0x6F, 0x07, 0x80, 0x02, 0x00, 0x64, 0x82, 0x01, 0x01], 0x90, 0x00⟩,
         ⟨[0xFF], 0x90, 0x00⟩] =
      { res := .success,
        file := some { id := 0x5678, path := ⟨.path, [0x3f, 0x00, 0x12, 0x34]⟩,
                       ftype := some .workingEF, efStructure := some .transparent,
                       shareable := some false, size := some 100,
                       recordLength := some 0, name := [] },
        st := ⟨false, ⟨.path, [0x3f, 0x00, 0x12, 0x34]⟩⟩,
        sent := [⟨0xA4, 0x00, 0x00, [0x3f, 0x00]⟩, ⟨0xA4, 0x00, 0x0C, [0x3f, 0x00]⟩,
                 ⟨0xA4, 0x00, 0x00, [0x12, 0x34]⟩, ⟨0xA4, 0x00, 0x0C, [0x12, 0x34]⟩,
                 ⟨0xA4, 0x00, 0x00, [0x56, 0x78]⟩, ⟨0xB0, 0x00, 0x00, []⟩],
        fidCalls := [(0x3f, 0x00, false), (0x12, 0x34, false), (0x56, 0x78, true)],
        aidCalls := [] } := by
  decide


/-- C3 amended: `computeSignature` and `decipher` each fail
`InvalidArguments` with zero transport calls when no configuration is pending
(`sec_ops = 0`); `computeSignature` requires the pending kind to match its
entry point — with a pending Decipher configuration it never returns data and
fails `InvalidArguments` (though only after the MSE exchange); `decipher`
does not check the pending operation kind at all — any pending configuration
is accepted, so it never fails `InvalidArguments` once one is pending and the
cryptogram fits in 255 bytes. -/
theorem claim3_sequencer_gate_amended (mse : MseState) (data crgram : List Nat)
    (outlen : Nat) (script : List Resp) :
    (mse.secOps = .idle →
      starcos_compute_signature mse data outlen script = (.invalidArguments, mse, []) ∧
      starcos_decipher mse crgram outlen script = (.invalidArguments, mse, [])) ∧
    (mse.secOps = .decipher →
      ∀ bytes, (starcos_compute_signature mse data outlen script).1 ≠ .output bytes) ∧
    (mse.secOps = .decipher → data.length ≤ 20 →
      ∀ r s, script = r :: s → r.sw1 = 0x90 → r.sw2 = 0x00 →
        (starcos_compute_signature mse data outlen script).1 = .invalidArguments) ∧
    (mse.secOps ≠ .idle → crgram.length ≤ 255 →
      (starcos_decipher mse crgram outlen script).1 ≠ .invalidArguments) := by
  refine ⟨?_, ?_, ?_, ?_⟩
  · intro h
    constructor
    · unfold starcos_compute_signature
      split <;> simp [h]
    · unfold starcos_decipher
      split <;> simp [h]
  · intro h bytes
    unfold starcos_compute_signature
    split
    · simp
    · rw [if_neg (by simp [h])]
      cases script with
      | nil => simp
      | cons r s =>
        simp only [h]
        split <;> simp
  · intro h hlen r s hs hw1 hw2
    subst hs
    unfold starcos_compute_signature
    rw [if_neg (by omega), if_neg (by simp [h])]
    simp only [h, hw1, hw2]
    simp
  · intro h hlen
    unfold starcos_decipher
    rw [if_neg (by omega), if_neg h]
    cases script with
    | nil => simp
    | cons r s =>
      simp only
      split
      · simp
      · cases s with
        | nil => simp
        | cons r2 s2 =>
          simp only
          split <;> simp

/-- C3 witness: the amended gate theorem applied at concrete inputs — an idle
state rejects `computeSignature` immediately; a pending Decipher
configuration makes `computeSignature` fail `InvalidArguments` after a
successful MSE; a pending Sign configuration is accepted by `decipher`. -/
theorem claim3_sequencer_gate_amended_witness :
    (starcos_compute_signature ⟨.idle, [], 0, 0⟩ [1] 8 []).1 = .invalidArguments ∧
    (starcos_compute_signature ⟨.decipher, [0x80, 0x01, 0x02], 0x81, 0xB8⟩ [1] 8
        [⟨[], 0x90, 0x00⟩]).1 = .invalidArguments ∧
    (starcos_decipher ⟨.sign, [0x80, 0x01, 0x12], 0x41, 0xB6⟩ [1] 8
        [⟨[], 0x90, 0x00⟩, ⟨[2], 0x90, 0x00⟩]).1 ≠ .invalidArguments := by
  refine ⟨?_, ?_, ?_⟩
  · rw [(claim3_sequencer_gate_amended ⟨.idle, [], 0, 0⟩ [1] [1] 8 []).1 rfl |>.1]
  · exact (claim3_sequencer_gate_amended ⟨.decipher, [0x80, 0x01, 0x02], 0x81, 0xB8⟩
      [1] [1] 8 [⟨[], 0x90, 0x00⟩]).2.2.1 rfl (by decide) ⟨[], 0x90, 0x00⟩ [] rfl rfl rfl
  · exact (claim3_sequencer_gate_amended ⟨.sign, [0x80, 0x01, 0x12], 0x41, 0xB6⟩
      [1] [1] 8 [⟨[], 0x90, 0x00⟩, ⟨[2], 0x90, 0x00⟩]).2.2.2 (by decide) (by decide)

/-- C9: the status-word translator maps any word with first byte 0x90 to
Success, any word 0x63Cx to PinIncorrect with remaining tries the low nibble
of the second byte, 0x6A89 to FileAlreadyExists, and every word matching
neither the card-specific rules nor the table is delegated to the base
protocol's translator. -/
theorem claim9_check_sw_translation (sw1 sw2 : Nat) :
    (sw1 = 0x90 → starcos_check_sw sw1 sw2 = .noError) ∧
    (sw1 = 0x63 → sw2 / 16 = 0x0c →
      starcos_check_sw sw1 sw2 = .pinIncorrect (sw2 % 16)) ∧
    starcos_check_sw 0x6A 0x89 = .starcosErr .fileAlreadyExists ∧
    (sw1 ≠ 0x90 → ¬(sw1 = 0x63 ∧ sw2 / 16 = 0x0c) →
      lookupErr ((sw1 <<< 8) ||| sw2) starcos_errors = none →
      starcos_check_sw sw1 sw2 = .iso sw1 sw2) := by
  refine ⟨?_, ?_, by decide, ?_⟩
  · intro h
    simp [starcos_check_sw, h]
  · intro h1 h2
    subst h1
    simp [starcos_check_sw, h2]
  · intro h1 h2 h3
    simp [starcos_check_sw, h1, h2, h3]

/-- C9 witness: the translator theorem applied at 0x9000 (Success), 0x63C5
(PinIncorrect, 5 tries left: 0xC5 is of the form 0xCx), and 0x6985 (not a
card-specific code, delegated). -/
theorem claim9_check_sw_translation_witness :
    starcos_check_sw 0x90 0x00 = .noError ∧
    ((0x63 : Nat) = 0x63 ∧ (0xC5 : Nat) / 16 = 0x0c ∧
      starcos_check_sw 0x63 0xC5 = .pinIncorrect 5) ∧
    starcos_check_sw 0x69 0x85 = .iso 0x69 0x85 := by
  refine ⟨(claim9_check_sw_translation 0x90 0x00).1 rfl, ⟨rfl, by decide, ?_⟩, ?_⟩
  · have h := (claim9_check_sw_translation 0x63 0xC5).2.1 rfl (by decide)
    simpa using h
  · exact (claim9_check_sw_translation 0x69 0x85).2.2.2 (by decide) (by decide) (by decide)

/-- C10: when the FID-select response is classified as an EF (status 0x9000,
READ BINARY probe not answering 0x6986), begins with the FCI tag 0x6F, but
its claimed FCI length `l` exceeds the remaining response bytes, the
operation still returns Success with a descriptor whose metadata fields are
all left undecoded (the FCI body is silently skipped), the cache is
unchanged, and no UnknownDataReceived or other error is raised. -/
theorem claim10_fci_overflow_skips_decode (st : SelState) (hi lo l : Nat)
    (rest : List Nat) (r2 : Resp) (s : List Resp) (hl : rest.length < l)
    (hp : ¬(r2.sw1 = 0x69 ∧ r2.sw2 = 0x86)) :
    starcos_select_fid st hi lo true (⟨0x6F :: l :: rest, 0x90, 0x00⟩ :: r2 :: s) =
      ⟨.success,
       some { ScFile.blank with id := (hi <<< 8) + lo, path := st.cachePath },
       st, [⟨0xA4, 0x00, 0x00, [hi, lo]⟩, ⟨0xB0, 0x00, 0x00, []⟩]⟩ := by
  have hfci : fciLenOk (rest.length + 1 + 1) l = false := by
    simp [fciLenOk]
    omega
  simp [starcos_select_fid, hp, hfci]

/-- C10 witness: the theorem applied to a concrete selection of FID 5678
whose EF response claims 5 FCI bytes but carries none. -/
theorem claim10_fci_overflow_skips_decode_witness :
    ([] : List Nat).length < 5 ∧ ¬((0x90 : Nat) = 0x69 ∧ (0x00 : Nat) = 0x86) ∧
    starcos_select_fid ⟨true, ⟨.path, [0x3f, 0x00]⟩⟩ 0x56 0x78 true
        [⟨[0x6F, 5], 0x90, 0x00⟩, ⟨[0xAA], 0x90, 0x00⟩] =
      ⟨.success,
       some { ScFile.blank with id := 0x5678, path := ⟨.path, [0x3f, 0x00]⟩ },
       ⟨true, ⟨.path, [0x3f, 0x00]⟩⟩,
       [⟨0xA4, 0x00, 0x00, [0x56, 0x78]⟩, ⟨0xB0, 0x00, 0x00, []⟩]⟩ := by
  refine ⟨by decide, by decide, ?_⟩
  rw [claim10_fci_overflow_skips_decode ⟨true, ⟨.path, [0x3f, 0x00]⟩⟩ 0x56 0x78 5 []
    ⟨[0xAA], 0x90, 0x00⟩ [] (by decide) (by decide)]
  decide

/-- C6 amended: for every TLV input whose tag 0x82 is found: a 1-byte value
0x01 or 0x11 yields a Transparent working EF; a 3-byte value whose second
byte is 0x21 yields record length equal to the third byte with the first
byte selecting the structure (0x02 LinearFixed, 0x07 Cyclic, 0x17 Unknown —
keeping the record length, not resetting it — and any other first byte
Unknown with record length 0); a 3-byte value whose second byte is not 0x21
matches no branch and keeps the defaults (structure Unknown, record length
0). -/
theorem claim6_tag82_amended (f : ScFile) (buf v : List Nat) (a b rl : Nat)
    (hv : sc_asn1_find_tag buf 0x82 = some v) :
    ((v = [0x01] ∨ v = [0x11]) →
      (process_fci f buf).ftype = some .workingEF ∧
      (process_fci f buf).efStructure = some .transparent) ∧
    (v = [a, 0x21, rl] →
      (process_fci f buf).recordLength =
        some (if a = 0x02 ∨ a = 0x07 ∨ a = 0x17 then rl else 0) ∧
      (process_fci f buf).ftype = some .workingEF ∧
      (process_fci f buf).efStructure =
        some (if a = 0x02 then .linearFixed else if a = 0x07 then .cyclic else .unknown)) ∧
    (v = [a, b, rl] → b ≠ 0x21 →
      (process_fci f buf).efStructure = some .unknown ∧
      (process_fci f buf).recordLength = some 0) := by
  refine ⟨?_, ?_, ?_⟩
  · rintro (h | h) <;> subst h <;> cases h80 : sc_asn1_find_tag buf 0x80 <;>
      simp [process_fci, hv, h80]
  · intro h
    subst h
    cases h80 : sc_asn1_find_tag buf 0x80
    all_goals
      by_cases h2 : a = 0x02
      · simp [process_fci, hv, h80, h2]
      · by_cases h7 : a = 0x07
        · simp [process_fci, hv, h80, h2, h7]
        · by_cases h17 : a = 0x17 <;>
            simp [process_fci, hv, h80, h2, h7, h17]
  · intro h hb
    subst h
    cases h80 : sc_asn1_find_tag buf 0x80 with
    | none => simp [process_fci, hv, h80, hb]
    | some w =>
      simp [process_fci, hv, h80, hb]
      split <;> simp

/-- C6 witness: the amended decoder theorem applied to the spec's example TLV
82 03 02 21 0A — LinearFixed with record length 10 — and to the 1-byte value
01 in TLV 82 01 01 — a Transparent working EF. -/
theorem claim6_tag82_amended_witness :
    sc_asn1_find_tag [0x82, 0x03, 0x02, 0x21, 0x0A] 0x82 = some [0x02, 0x21, 0x0A] ∧
    (process_fci ScFile.blank [0x82, 0x03, 0x02, 0x21, 0x0A]).recordLength = some 10 ∧
    (process_fci ScFile.blank [0x82, 0x03, 0x02, 0x21, 0x0A]).efStructure = some .linearFixed ∧
    (process_fci ScFile.blank [0x82, 0x01, 0x01]).efStructure = some .transparent := by
  have h := (claim6_tag82_amended ScFile.blank [0x82, 0x03, 0x02, 0x21, 0x0A]
    [0x02, 0x21, 0x0A] 0x02 0 0x0A (by decide)).2.1 rfl
  have h1 := (claim6_tag82_amended ScFile.blank [0x82, 0x01, 0x01] [0x01] 0 0 0
    (by decide)).1 (Or.inl rfl)
  refine ⟨by decide, ?_, ?_, h1.2⟩
  · rw [h.1]
    decide
  · rw [h.2.2]
    decide

/-- Helper: a FID-select that transmitted nothing can only have failed on an
exhausted transport script. -/
theorem select_fid_empty_sent (st : SelState) (hi lo : Nat) (w : Bool)
    (script : List Resp)
    (h : (starcos_select_fid st hi lo w script).sent = []) :
    (starcos_select_fid st hi lo w script).res = .transportError := by
  unfold starcos_select_fid at *
  cases script with
  | nil => rfl
  | cons r s =>
    simp only at h ⊢
    repeat' split at h
    all_goals simp_all

/-- Helper: an AID-select that transmitted nothing can only have failed on an
exhausted transport script. -/
theorem select_aid_empty_sent (st : SelState) (aid : List Nat) (w : Bool)
    (script : List Resp)
    (h : (starcos_select_aid st aid w script).sent = []) :
    (starcos_select_aid st aid w script).res = .transportError := by
  unfold starcos_select_aid at *
  cases script with
  | nil => rfl
  | cons r s =>
    simp only at h ⊢
    repeat' split at h
    all_goals simp_all

/-- C7: a FileId select issues zero transport calls and returns Success
exactly when the cache is a valid FID path whose last two bytes equal the
requested FID, and otherwise issues a single FID-select for that FID; an
AppId select issues zero transport calls and returns Success exactly when the
cache is a valid, byte-identical AID, and otherwise issues a single
AID-select. -/
theorem claim7_cache_hit_iff (st : SelState) (a b : Nat) (w : Bool)
    (aid : List Nat) (script script2 : List Resp) :
    (((starcos_select_file st ⟨.fileId, [a, b]⟩ w script).res = .success ∧
        (starcos_select_file st ⟨.fileId, [a, b]⟩ w script).sent = []) ↔
      fidCacheHit st a b) ∧
    (fidCacheHit st a b →
      (starcos_select_file st ⟨.fileId, [a, b]⟩ w script).fidCalls = []) ∧
    (¬ fidCacheHit st a b →
      (starcos_select_file st ⟨.fileId, [a, b]⟩ w script).fidCalls = [(a, b, w)]) ∧
    (((starcos_select_file st ⟨.dfName, aid⟩ w script2).res = .success ∧
        (starcos_select_file st ⟨.dfName, aid⟩ w script2).sent = []) ↔
      aidCacheHit st aid) ∧
    (aidCacheHit st aid →
      (starcos_select_file st ⟨.dfName, aid⟩ w script2).aidCalls = []) ∧
    (¬ aidCacheHit st aid →
      (starcos_select_file st ⟨.dfName, aid⟩ w script2).aidCalls = [(aid, w)]) := by
  have hfid : ∀ (h : ¬ fidCacheHit st a b),
      starcos_select_file st ⟨.fileId, [a, b]⟩ w script =
        { res := (starcos_select_fid st a b w script).res,
          file := (starcos_select_fid st a b w script).file,
          st := (starcos_select_fid st a b w script).st,
          sent := (starcos_select_fid st a b w script).sent,
          fidCalls := [(a, b, w)], aidCalls := [] } := by
    intro h
    unfold starcos_select_file selectFileGo
    simp [h]
  have haid : ∀ (h : ¬ aidCacheHit st aid),
      starcos_select_file st ⟨.dfName, aid⟩ w script2 =
        { res := (starcos_select_aid st aid w script2).res,
          file := (starcos_select_aid st aid w script2).file,
          st := (starcos_select_aid st aid w script2).st,
          sent := (starcos_select_aid st aid w script2).sent,
          fidCalls := [], aidCalls := [(aid, w)] } := by
    intro h
    unfold starcos_select_file selectFileGo
    simp [h]
  have hfidhit : ∀ (h : fidCacheHit st a b),
      starcos_select_file st ⟨.fileId, [a, b]⟩ w script =
        ⟨.success, none, st, [], [], []⟩ := by
    intro h
    unfold starcos_select_file selectFileGo
    simp [h]
  have haidhit : ∀ (h : aidCacheHit st aid),
      starcos_select_file st ⟨.dfName, aid⟩ w script2 =
        ⟨.success, none, st, [], [], []⟩ := by
    intro h
    unfold starcos_select_file selectFileGo
    simp [h]
  refine ⟨⟨?_, ?_⟩, ?_, ?_, ⟨?_, ?_⟩, ?_, ?_⟩
  · intro ⟨h1, h2⟩
    by_cases h : fidCacheHit st a b
    · exact h
    · rw [hfid h] at h1 h2
      simp only at h1 h2
      have := select_fid_empty_sent st a b w script h2
      rw [this] at h1
      exact absurd h1 (by simp)
  · intro h
    rw [hfidhit h]
    exact ⟨rfl, rfl⟩
  · intro h
    rw [hfidhit h]
  · intro h
    rw [hfid h]
  · intro ⟨h1, h2⟩
    by_cases h : aidCacheHit st aid
    · exact h
    · rw [haid h] at h1 h2
      simp only at h1 h2
      have := select_aid_empty_sent st aid w script2 h2
      rw [this] at h1
      exact absurd h1 (by simp)
  · intro h
    rw [haidhit h]
    exact ⟨rfl, rfl⟩
  · intro h
    rw [haidhit h]
  · intro h
    rw [haid h]

/-- C7 witness: the cache-hit theorem applied at concrete states — a valid
cached path [3F00,1234] makes selecting FID 1234 a zero-transport Success; an
invalid cache makes the same request issue one FID-select; a cached AID hits
on the identical AID and an AID-select is issued for a different one. -/
theorem claim7_cache_hit_iff_witness :
    fidCacheHit ⟨true, ⟨.path, [0x3f, 0x00, 0x12, 0x34]⟩⟩ 0x12 0x34 ∧
    (starcos_select_file ⟨true, ⟨.path, [0x3f, 0x00, 0x12, 0x34]⟩⟩
        ⟨.fileId, [0x12, 0x34]⟩ true []).res = .success ∧
    (starcos_select_file ⟨true, ⟨.path, [0x3f, 0x00, 0x12, 0x34]⟩⟩
        ⟨.fileId, [0x12, 0x34]⟩ true []).sent = [] ∧
    ¬ fidCacheHit ⟨false, ⟨.path, [0x3f, 0x00, 0x12, 0x34]⟩⟩ 0x12 0x34 ∧
    (starcos_select_file ⟨false, ⟨.path, [0x3f, 0x00, 0x12, 0x34]⟩⟩
        ⟨.fileId, [0x12, 0x34]⟩ true []).fidCalls = [(0x12, 0x34, true)] ∧
    aidCacheHit ⟨true, ⟨.dfName, [0xA0, 0x01]⟩⟩ [0xA0, 0x01] ∧
    (starcos_select_file ⟨true, ⟨.dfName, [0xA0, 0x01]⟩⟩
        ⟨.dfName, [0xA0, 0x01]⟩ false []).sent = [] ∧
    ¬ aidCacheHit ⟨true, ⟨.dfName, [0xA0, 0x01]⟩⟩ [0xA0, 0x02] ∧
    (starcos_select_file ⟨true, ⟨.dfName, [0xA0, 0x01]⟩⟩
        ⟨.dfName, [0xA0, 0x02]⟩ false []).aidCalls = [([0xA0, 0x02], false)] := by
  refine ⟨by decide, ?_, ?_, by decide, ?_, by decide, ?_, by decide, ?_⟩
  · exact ((claim7_cache_hit_iff ⟨true, ⟨.path, [0x3f, 0x00, 0x12, 0x34]⟩⟩ 0x12 0x34
      true [] [] []).1.mpr (by decide)).1
  · exact ((claim7_cache_hit_iff ⟨true, ⟨.path, [0x3f, 0x00, 0x12, 0x34]⟩⟩ 0x12 0x34
      true [] [] []).1.mpr (by decide)).2
  · exact (claim7_cache_hit_iff ⟨false, ⟨.path, [0x3f, 0x00, 0x12, 0x34]⟩⟩ 0x12 0x34
      true [] [] []).2.2.1 (by decide)
  · exact ((claim7_cache_hit_iff ⟨true, ⟨.dfName, [0xA0, 0x01]⟩⟩ 0 0
      false [0xA0, 0x01] [] []).2.2.2.1.mpr (by decide)).2
  · exact (claim7_cache_hit_iff ⟨true, ⟨.dfName, [0xA0, 0x01]⟩⟩ 0 0
      false [0xA0, 0x02] [] []).2.2.2.2.2 (by decide)

/-- C8: the cache-directory invariant.  Every FID-select either leaves the
session cache untouched, or — exactly when the response classified the target
as a DF — rewrites it to a root-anchored directory path ([3F00] or
[3F00,hi,lo]) while any descriptor it returns is a DF descriptor; hence a
selection that returns a working-EF descriptor has left the cache unchanged.
Every AID-select either leaves the cache untouched or stores the AID (a
directory location).  The cache-validity flag is never touched. -/
theorem claim8_cache_directory_invariant (st : SelState) (hi lo : Nat) (w : Bool)
    (script : List Resp) (st2 : SelState) (aid : List Nat) (w2 : Bool)
    (script2 : List Resp) :
    ((starcos_select_fid st hi lo w script).st = st ∨
      ((starcos_select_fid st hi lo w script).st.cacheValid = st.cacheValid ∧
       (starcos_select_fid st hi lo w script).st.cachePath.ptype = .path ∧
       ((starcos_select_fid st hi lo w script).st.cachePath.value = [0x3f, 0x00] ∨
        (starcos_select_fid st hi lo w script).st.cachePath.value = [0x3f, 0x00, hi, lo]) ∧
       Option.all (fun f => f.ftype == some FType.df)
         (starcos_select_fid st hi lo w script).file = true)) ∧
    ((starcos_select_aid st2 aid w2 script2).st = st2 ∨
      ((starcos_select_aid st2 aid w2 script2).st.cacheValid = st2.cacheValid ∧
       (starcos_select_aid st2 aid w2 script2).st.cachePath = ⟨.dfName, aid⟩ ∧
       Option.all (fun f => f.ftype == some FType.df)
         (starcos_select_aid st2 aid w2 script2).file = true)) := by
  constructor
  · unfold starcos_select_fid
    cases script with
    | nil => left; rfl
    | cons r s =>
      simp only
      split
      · cases s with
        | nil => left; rfl
        | cons r2 s2 =>
          simp only
          split
          · left; rfl
          · right
            refine ⟨rfl, rfl, ?_, ?_⟩
            · by_cases hm : hi = 0x3f ∧ lo = 0x00 <;>
                simp [dfCacheUpdate, hm]
            · cases w <;> simp [dfFile]
      · split
        · cases s with
          | nil => left; rfl
          | cons rb s2 =>
            simp only
            split
            · right
              refine ⟨rfl, rfl, ?_, ?_⟩
              · by_cases hm : hi = 0x3f ∧ lo = 0x00 <;>
                  simp [dfCacheUpdate, hm]
              · cases w <;> simp [dfFile]
            · left
              (repeat' split) <;> rfl
        · left; rfl
  · unfold starcos_select_aid
    cases script2 with
    | nil => left; rfl
    | cons r s =>
      simp only
      split
      · left; rfl
      · right
        cases w2 <;> simp
